import Mathlib

/-!
Shallow embedding of the lifecycle-investing core calculation pipeline
(`present_value.py`, `duration.py`, `optimization.py`, `glide_path.py`).

Real arithmetic is modelled over `ℚ`.  Python's float division and float
power raise `ZeroDivisionError` on a zero divisor (respectively on a zero
base with a negative exponent); these fallible primitives are modelled as
`Option`-valued operations (`pydiv`, `pyzpow`), and every core function
that can hit them is `Option`-valued, returning `none` exactly when the
Python code would raise.
-/

/-- Python float division: raises (returns `none`) on a zero divisor. -/
def pydiv (a b : ℚ) : Option ℚ :=
  if b = 0 then none else some (a / b)

/-- Python float power with an integer exponent: raises (returns `none`)
on a zero base with a negative exponent; otherwise `b ^ e` (`zpow`). -/
def pyzpow (b : ℚ) (e : ℤ) : Option ℚ :=
  if b = 0 ∧ e < 0 then none else some (b ^ e)

/-! ## Configuration constants (`config.py`) -/

/-- `RISK_FREE_RATE = 0.02` -/
def RISK_FREE_RATE : ℚ := 2 / 100

/-- `STOCK_EXCESS_RETURN = 0.04` -/
def STOCK_EXCESS_RETURN : ℚ := 4 / 100

/-- `BOND_EXCESS_RETURN = 0.01` -/
def BOND_EXCESS_RETURN : ℚ := 1 / 100

/-- `STOCK_VOLATILITY = 0.18` -/
def STOCK_VOLATILITY : ℚ := 18 / 100

/-- `STOCK_VARIANCE = STOCK_VOLATILITY ** 2` -/
def STOCK_VARIANCE : ℚ := STOCK_VOLATILITY ^ 2

/-- `BOND_VOLATILITY = 0.18` -/
def BOND_VOLATILITY : ℚ := 18 / 100

/-- `BOND_VARIANCE = BOND_VOLATILITY ** 2` -/
def BOND_VARIANCE : ℚ := BOND_VOLATILITY ^ 2

/-- `LTPZ_DURATION = 18.5` -/
def LTPZ_DURATION : ℚ := 37 / 2

/-- `STOCK_GEOMETRIC_RETURN = RISK_FREE_RATE + STOCK_EXCESS_RETURN - 0.5 * STOCK_VARIANCE` -/
def STOCK_GEOMETRIC_RETURN : ℚ := RISK_FREE_RATE + (STOCK_EXCESS_RETURN - (1 / 2) * STOCK_VARIANCE)

/-- `BOND_GEOMETRIC_RETURN = RISK_FREE_RATE + BOND_EXCESS_RETURN - 0.5 * BOND_VARIANCE` -/
def BOND_GEOMETRIC_RETURN : ℚ := RISK_FREE_RATE + (BOND_EXCESS_RETURN - (1 / 2) * BOND_VARIANCE)

/-- `CASH_GEOMETRIC_RETURN = RISK_FREE_RATE` -/
def CASH_GEOMETRIC_RETURN : ℚ := RISK_FREE_RATE

/-! ## Present-value engine (`present_value.py`) -/

/-- `pv_annuity(payment, rate, n_periods)`: present value of an ordinary
annuity.  Returns 0 for `n_periods ≤ 0`; `payment * n_periods` for
`rate = 0`; otherwise `payment * (1 - (1+rate)^(-n)) / rate`. -/
def pv_annuity (payment rate : ℚ) (n_periods : ℤ) : Option ℚ :=
  if n_periods ≤ 0 then some 0
  else if rate = 0 then some (payment * (n_periods : ℚ))
  else (pyzpow (1 + rate) (-n_periods)).map fun pw =>
    payment * ((1 - pw) / rate)

/-- `pv_human_capital`: CAPM discount rate
`risk_free_rate + income_beta * equity_premium`, then `pv_annuity`. -/
def pv_human_capital (annual_income : ℚ) (years_working : ℤ)
    (risk_free_rate income_beta equity_premium : ℚ) : Option ℚ :=
  let discount_rate := risk_free_rate + income_beta * equity_premium
  pv_annuity annual_income discount_rate years_working

/-- `pv_expenses`: PV of the working-years expense annuity plus the PV of
the retirement expense annuity discounted back `years_working` periods. -/
def pv_expenses (working_expenses retirement_expenses : ℚ)
    (years_working years_retirement : ℤ) (risk_free_rate : ℚ) : Option ℚ := do
  let pv_working ← pv_annuity working_expenses risk_free_rate years_working
  let pv_retirement_at_retirement ←
    pv_annuity retirement_expenses risk_free_rate years_retirement
  let discount_factor ←
    if risk_free_rate = 0 then some (1 : ℚ)
    else pyzpow (1 + risk_free_rate) (-years_working)
  return pv_working + pv_retirement_at_retirement * discount_factor

/-- `total_wealth(financial_assets, pv_human_capital, pv_expenses)`. -/
def total_wealth (financial_assets pv_hc pv_exp : ℚ) : ℚ :=
  financial_assets + pv_hc - pv_exp

/-! ## Duration engine (`duration.py`) -/

/-- `annuity_duration(rate, n_periods)`: Macaulay duration of an annuity.
0 for `n_periods ≤ 0`; `(n+1)/2` for `rate = 0`; otherwise
`(1+rate)/rate - n / ((1+rate)^n - 1)`.  The subtracted term divides by
`(1+rate)^n - 1`, which Python evaluates with a fallible division. -/
def annuity_duration (rate : ℚ) (n_periods : ℤ) : Option ℚ :=
  if n_periods ≤ 0 then some 0
  else if rate = 0 then some (((n_periods : ℚ) + 1) / 2)
  else
    (pydiv (n_periods : ℚ) ((1 + rate) ^ n_periods - 1)).map fun term2 =>
      (1 + rate) / rate - term2

/-- `human_capital_duration(years_working, risk_free_rate)`. -/
def human_capital_duration (years_working : ℤ) (risk_free_rate : ℚ) : Option ℚ :=
  annuity_duration risk_free_rate years_working

/-- `expense_duration`: PV-weighted average of the working-expense annuity
duration and the deferred retirement-expense annuity duration. -/
def expense_duration (years_working years_retirement : ℤ)
    (working_expenses retirement_expenses risk_free_rate : ℚ) : Option ℚ :=
  if years_working ≤ 0 ∧ years_retirement ≤ 0 then some 0
  else do
    let pv_working ← pv_annuity working_expenses risk_free_rate years_working
    let pv_retirement_at_retirement ←
      pv_annuity retirement_expenses risk_free_rate years_retirement
    let discount_factor ←
      if risk_free_rate = 0 then some (1 : ℚ)
      else pyzpow (1 + risk_free_rate) (-years_working)
    let pv_retirement_today := pv_retirement_at_retirement * discount_factor
    let total_pv := pv_working + pv_retirement_today
    if total_pv = 0 then return 0
    else do
      let duration_working ← annuity_duration risk_free_rate years_working
      let duration_retirement_annuity ← annuity_duration risk_free_rate years_retirement
      let duration_retirement := (years_working : ℚ) + duration_retirement_annuity
      return (pv_working * duration_working + pv_retirement_today * duration_retirement)
        / total_pv

/-! ## Portfolio optimizer (`optimization.py`) -/

/-- Stock/bond/cash weight triple (the `{"stocks", "bonds", "cash"}` dict). -/
structure Weights where
  stocks : ℚ
  bonds : ℚ
  cash : ℚ
deriving DecidableEq

/-- `optimal_total_wealth_weights`: mean-variance-optimal total-wealth
weights; each risky weight divides by `risk_aversion * variance`. -/
def optimal_total_wealth_weights (risk_aversion stock_excess_return
    bond_excess_return stock_variance bond_variance : ℚ) : Option Weights := do
  let w_stock ← pydiv stock_excess_return (risk_aversion * stock_variance)
  let w_bond ← pydiv bond_excess_return (risk_aversion * bond_variance)
  let w_cash := 1 - w_stock - w_bond
  return ⟨w_stock, w_bond, w_cash⟩

/-- `max(0.0, min(1.0, w))`: the clipping applied to each constrained weight. -/
def clip01 (w : ℚ) : ℚ := max 0 (min 1 w)

/-- `financial_portfolio_weights`: backs the financial portfolio weights out
of the total-wealth targets and the implicit human-capital/expense
exposures.  The duration splits divide by `ltpz_duration` (fallible) before
the `financial_assets ≤ 0` short-circuit, exactly as in the source. -/
def financial_portfolio_weights (total_w financial_assets pv_hc hc_duration
    pv_exp exp_dur : ℚ) (optimal_weights : Weights)
    (ltpz_duration income_beta : ℚ) (constrained : Bool) : Option Weights := do
  let bond_like_hc := pv_hc * (1 - income_beta)
  let hc_bond_equiv := (← pydiv hc_duration ltpz_duration) * bond_like_hc
  let hc_cash_equiv := bond_like_hc - hc_bond_equiv
  let hc_stock_equiv := pv_hc * income_beta
  let exp_bond_equiv := (← pydiv exp_dur ltpz_duration) * pv_exp
  let exp_cash_equiv := pv_exp - exp_bond_equiv
  let net_stock_equiv := hc_stock_equiv
  let net_bond_equiv := hc_bond_equiv - exp_bond_equiv
  let net_cash_equiv := hc_cash_equiv - exp_cash_equiv
  let target_stocks := optimal_weights.stocks * total_w
  let target_bonds := optimal_weights.bonds * total_w
  let target_cash := optimal_weights.cash * total_w
  let financial_stocks_needed := target_stocks - net_stock_equiv
  let financial_bonds_needed := target_bonds - net_bond_equiv
  let financial_cash_needed := target_cash - net_cash_equiv
  if financial_assets ≤ 0 then
    return ⟨0, 0, 1⟩
  else
    let w_stock := financial_stocks_needed / financial_assets
    let w_bond := financial_bonds_needed / financial_assets
    let w_cash := financial_cash_needed / financial_assets
    if constrained then
      let ws := clip01 w_stock
      let wb := clip01 w_bond
      let wc := clip01 w_cash
      let total_weight := ws + wb + wc
      if 0 < total_weight then
        return ⟨ws / total_weight, wb / total_weight, wc / total_weight⟩
      else
        return ⟨0, 0, 1⟩
    else
      return ⟨w_stock, w_bond, w_cash⟩

/-! ## Glide-path simulator (`glide_path.py`) -/

/-- One row of the glide-path DataFrame. -/
structure Snapshot where
  age : ℤ
  years_to_retirement : ℤ
  pv_human_capital : ℚ
  pv_expenses : ℚ
  total_wealth : ℚ
  financial_wealth : ℚ
  stock_weight : ℚ
  bond_weight : ℚ
  cash_weight : ℚ
deriving DecidableEq

/-- The per-year parameters of `compute_glide_path` that stay fixed across
the loop, including the upfront `optimal_total_wealth_weights` result. -/
structure GlideParams where
  retirement_age : ℤ
  life_expectancy : ℤ
  annual_income : ℚ
  working_expenses : ℚ
  retirement_expenses : ℚ
  risk_free_rate : ℚ
  income_beta : ℚ
  ltpz_duration : ℚ
  stock_geo_return : ℚ
  bond_geo_return : ℚ
  cash_return : ℚ
  optimal_weights : Weights

/-- The human-capital branch of the loop body: for `years_working > 0`
compute `pv_human_capital` (with the source's default `income_beta = 0`,
`equity_premium = STOCK_EXCESS_RETURN`) and `annuity_duration`; otherwise
both are exactly 0. -/
def hcPair (annual_income : ℚ) (years_working : ℤ) (risk_free_rate : ℚ) :
    Option (ℚ × ℚ) :=
  if 0 < years_working then do
    let hc_pv ← pv_human_capital annual_income years_working risk_free_rate 0
      STOCK_EXCESS_RETURN
    let hc_duration ← annuity_duration risk_free_rate years_working
    return (hc_pv, hc_duration)
  else some (0, 0)

/-- One iteration of the `compute_glide_path` loop body: emit this year's
`Snapshot` and the financial wealth carried into the next year. -/
def glideStep (P : GlideParams) (age : ℤ) (fw : ℚ) : Option (Snapshot × ℚ) := do
  let years_to_retirement := max 0 (P.retirement_age - age)
  let years_working := years_to_retirement
  let years_retired := max 0 (P.life_expectancy - max age P.retirement_age)
  let hc ← hcPair P.annual_income years_working P.risk_free_rate
  let exp_pv ← pv_expenses P.working_expenses P.retirement_expenses
    years_working years_retired P.risk_free_rate
  let exp_dur ← expense_duration years_working years_retired
    P.working_expenses P.retirement_expenses P.risk_free_rate
  let total_w := fw + hc.1 - exp_pv
  let fin ← financial_portfolio_weights total_w fw hc.1 hc.2 exp_pv exp_dur
    P.optimal_weights P.ltpz_duration P.income_beta true
  let portfolio_return := fin.stocks * P.stock_geo_return
    + fin.bonds * P.bond_geo_return + fin.cash * P.cash_return
  let annual_cashflow :=
    if 0 < years_working then P.annual_income - P.working_expenses
    else -P.retirement_expenses
  let next_fw := max 0 (fw * (1 + portfolio_return) + annual_cashflow)
  return (⟨age, years_to_retirement, hc.1, exp_pv, total_w, fw,
    fin.stocks, fin.bonds, fin.cash⟩, next_fw)

/-- The `for age in range(current_age, life_expectancy + 1)` loop, with the
remaining iteration count as fuel. -/
def glideLoop (P : GlideParams) : ℕ → ℤ → ℚ → Option (List Snapshot)
  | 0, _, _ => some []
  | fuel + 1, age, fw => do
      let step ← glideStep P age fw
      let rest ← glideLoop P fuel (age + 1) step.2
      return step.1 :: rest

/-- `compute_glide_path`: computes the (age-invariant) optimal total-wealth
weights once upfront, then folds `glideStep` over the ages
`current_age .. life_expectancy`, threading projected financial wealth. -/
def compute_glide_path (current_age retirement_age life_expectancy : ℤ)
    (annual_income working_expenses retirement_expenses financial_assets
     risk_aversion income_beta risk_free_rate stock_excess_return
     bond_excess_return stock_volatility bond_volatility ltpz_duration
     stock_geo_return bond_geo_return cash_return : ℚ) :
    Option (List Snapshot) := do
  let stock_variance := stock_volatility ^ 2
  let bond_variance := bond_volatility ^ 2
  let ow ← optimal_total_wealth_weights risk_aversion stock_excess_return
    bond_excess_return stock_variance bond_variance
  glideLoop
    ⟨retirement_age, life_expectancy, annual_income, working_expenses,
      retirement_expenses, risk_free_rate, income_beta, ltpz_duration,
      stock_geo_return, bond_geo_return, cash_return, ow⟩
    (life_expectancy + 1 - current_age).toNat current_age financial_assets

/-- Convenience accessor: the weights of an optional result, defaulting to
the zero triple (used only to state closed theorems without binders). -/
def outW (o : Option Weights) : Weights := o.getD ⟨0, 0, 0⟩

/-- Default `Snapshot` used to state closed theorems without binders. -/
def dummySnapshot : Snapshot := ⟨0, 0, 0, 0, 0, 0, 0, 0, 0⟩

/-!
Total companions of the `Option`-valued functions.  Each `...T` definition
repeats the source arithmetic with Lean's total field division; the
evaluation lemmas below prove that whenever the Python code does not raise,
the `Option`-valued embedding returns `some` of the companion's value.
-/

/-- Total companion of `pv_annuity`. -/
def pvAnnuityT (payment rate : ℚ) (n_periods : ℤ) : ℚ :=
  if n_periods ≤ 0 then 0
  else if rate = 0 then payment * (n_periods : ℚ)
  else payment * ((1 - (1 + rate) ^ (-n_periods)) / rate)

/-- Total companion of `pv_expenses`. -/
def pvExpensesT (working_expenses retirement_expenses : ℚ)
    (years_working years_retirement : ℤ) (risk_free_rate : ℚ) : ℚ :=
  pvAnnuityT working_expenses risk_free_rate years_working +
    pvAnnuityT retirement_expenses risk_free_rate years_retirement *
      (if risk_free_rate = 0 then 1 else (1 + risk_free_rate) ^ (-years_working))

/-- Total companion of `annuity_duration`. -/
def annuityDurationT (rate : ℚ) (n_periods : ℤ) : ℚ :=
  if n_periods ≤ 0 then 0
  else if rate = 0 then ((n_periods : ℚ) + 1) / 2
  else (1 + rate) / rate - (n_periods : ℚ) / ((1 + rate) ^ n_periods - 1)

/-- Total companion of `expense_duration`. -/
def expenseDurationT (years_working years_retirement : ℤ)
    (working_expenses retirement_expenses risk_free_rate : ℚ) : ℚ :=
  if years_working ≤ 0 ∧ years_retirement ≤ 0 then 0
  else
    let pv_working := pvAnnuityT working_expenses risk_free_rate years_working
    let pv_retirement_today :=
      pvAnnuityT retirement_expenses risk_free_rate years_retirement *
        (if risk_free_rate = 0 then 1 else (1 + risk_free_rate) ^ (-years_working))
    let total_pv := pv_working + pv_retirement_today
    if total_pv = 0 then 0
    else
      (pv_working * annuityDurationT risk_free_rate years_working +
        pv_retirement_today *
          ((years_working : ℚ) + annuityDurationT risk_free_rate years_retirement))
        / total_pv

/-- Total companion of `optimal_total_wealth_weights`. -/
def optimalWeightsT (risk_aversion stock_excess_return bond_excess_return
    stock_variance bond_variance : ℚ) : Weights :=
  ⟨stock_excess_return / (risk_aversion * stock_variance),
   bond_excess_return / (risk_aversion * bond_variance),
   1 - stock_excess_return / (risk_aversion * stock_variance)
     - bond_excess_return / (risk_aversion * bond_variance)⟩

/-- Total companion of `financial_portfolio_weights`. -/
def fpwTotal (total_w financial_assets pv_hc hc_duration pv_exp exp_dur : ℚ)
    (optimal_weights : Weights) (ltpz_duration income_beta : ℚ)
    (constrained : Bool) : Weights :=
  let bond_like_hc := pv_hc * (1 - income_beta)
  let hc_bond_equiv := hc_duration / ltpz_duration * bond_like_hc
  let hc_cash_equiv := bond_like_hc - hc_bond_equiv
  let hc_stock_equiv := pv_hc * income_beta
  let exp_bond_equiv := exp_dur / ltpz_duration * pv_exp
  let exp_cash_equiv := pv_exp - exp_bond_equiv
  let net_stock_equiv := hc_stock_equiv
  let net_bond_equiv := hc_bond_equiv - exp_bond_equiv
  let net_cash_equiv := hc_cash_equiv - exp_cash_equiv
  let target_stocks := optimal_weights.stocks * total_w
  let target_bonds := optimal_weights.bonds * total_w
  let target_cash := optimal_weights.cash * total_w
  let financial_stocks_needed := target_stocks - net_stock_equiv
  let financial_bonds_needed := target_bonds - net_bond_equiv
  let financial_cash_needed := target_cash - net_cash_equiv
  if financial_assets ≤ 0 then ⟨0, 0, 1⟩
  else
    let w_stock := financial_stocks_needed / financial_assets
    let w_bond := financial_bonds_needed / financial_assets
    let w_cash := financial_cash_needed / financial_assets
    if constrained then
      let ws := clip01 w_stock
      let wb := clip01 w_bond
      let wc := clip01 w_cash
      let total_weight := ws + wb + wc
      if 0 < total_weight then
        ⟨ws / total_weight, wb / total_weight, wc / total_weight⟩
      else ⟨0, 0, 1⟩
    else ⟨w_stock, w_bond, w_cash⟩

/-- Total companion of `hcPair`. -/
def hcPairT (annual_income : ℚ) (years_working : ℤ) (risk_free_rate : ℚ) :
    ℚ × ℚ :=
  if 0 < years_working then
    (pvAnnuityT annual_income risk_free_rate years_working,
     annuityDurationT risk_free_rate years_working)
  else (0, 0)

/-! ## Evaluation lemmas -/

theorem someBindEq {α β : Type} (a : α) (f : α → Option β) :
    (some a).bind f = f a := rfl

theorem pydiv_eval {a b : ℚ} (h : b ≠ 0) : pydiv a b = some (a / b) := by
  simp [pydiv, h]

theorem pyzpow_eval {b : ℚ} {e : ℤ} (h : b ≠ 0) : pyzpow b e = some (b ^ e) := by
  simp [pyzpow, h]

theorem pv_annuity_eval {payment : ℚ} {n : ℤ} {rate : ℚ} (h : (1 : ℚ) + rate ≠ 0) :
    pv_annuity payment rate n = some (pvAnnuityT payment rate n) := by
  unfold pv_annuity pvAnnuityT
  split_ifs <;> simp [pyzpow_eval h]

theorem pv_expenses_eval {we re : ℚ} {yw yr : ℤ} {r : ℚ} (h : (1 : ℚ) + r ≠ 0) :
    pv_expenses we re yw yr r = some (pvExpensesT we re yw yr r) := by
  unfold pv_expenses pvExpensesT
  by_cases h0 : r = 0
  · subst h0
    simp [pv_annuity_eval h, someBindEq]
  · simp [pv_annuity_eval h, h0, pyzpow_eval h, someBindEq]

/-- A positive rational other than 1 has no integer power equal to 1
(positive exponent). -/
theorem zpow_ne_one_of_pos {x : ℚ} (hx : 0 < x) (hx1 : x ≠ 1) {n : ℤ}
    (hn : 0 < n) : x ^ n ≠ 1 := by
  lift n to ℕ using le_of_lt hn
  rw [zpow_natCast]
  have hn' : n ≠ 0 := by exact_mod_cast hn.ne'
  rcases lt_or_gt_of_ne hx1 with hlt | hgt
  · exact ne_of_lt (pow_lt_one₀ (le_of_lt hx) hlt hn')
  · exact ne_of_gt (one_lt_pow₀ hgt hn')

theorem annuity_duration_eval {n : ℤ} {rate : ℚ} (h : 0 < 1 + rate) :
    annuity_duration rate n = some (annuityDurationT rate n) := by
  unfold annuity_duration annuityDurationT
  split_ifs with h1 h2
  · rfl
  · rfl
  · have hne : (1 + rate) ^ n - 1 ≠ 0 := by
      have h1r : (1 : ℚ) + rate ≠ 1 := by
        intro hc
        exact h2 (by linarith [hc])
      have := zpow_ne_one_of_pos h h1r (n := n) (by omega)
      exact sub_ne_zero.mpr this
    simp [pydiv_eval hne]

theorem expense_duration_eval {yw yr : ℤ} {we re : ℚ} {r : ℚ} (h : 0 < 1 + r) :
    expense_duration yw yr we re r = some (expenseDurationT yw yr we re r) := by
  have h' : (1 : ℚ) + r ≠ 0 := ne_of_gt h
  unfold expense_duration expenseDurationT
  by_cases h0 : yw ≤ 0 ∧ yr ≤ 0
  · simp [h0]
  · by_cases hr0 : r = 0
    · subst hr0
      simp only [if_neg h0, pv_annuity_eval h', if_pos rfl,
        annuity_duration_eval h, someBindEq, Option.bind_eq_bind]
      simp [apply_ite Option.some]
    · simp only [if_neg h0, pv_annuity_eval h', if_neg hr0, pyzpow_eval h',
        annuity_duration_eval h, someBindEq, Option.bind_eq_bind]
      simp [apply_ite Option.some]

theorem optimal_weights_eval {γ ser ber sv bv : ℚ} (h1 : γ * sv ≠ 0)
    (h2 : γ * bv ≠ 0) :
    optimal_total_wealth_weights γ ser ber sv bv =
      some (optimalWeightsT γ ser ber sv bv) := by
  simp [optimal_total_wealth_weights, optimalWeightsT, pydiv_eval h1, pydiv_eval h2]

theorem financial_portfolio_weights_eval {tw fa pvh hcd pve expd : ℚ}
    {ow : Weights} {ltpz ib : ℚ} {c : Bool} (hl : ltpz ≠ 0) :
    financial_portfolio_weights tw fa pvh hcd pve expd ow ltpz ib c =
      some (fpwTotal tw fa pvh hcd pve expd ow ltpz ib c) := by
  unfold financial_portfolio_weights fpwTotal
  simp only [pydiv_eval hl, Option.bind_eq_bind, someBindEq]
  split_ifs <;> rfl

/-! ## Clipping and renormalization facts -/

theorem outW_some (w : Weights) : outW (some w) = w := rfl

theorem clip01_nonneg (w : ℚ) : 0 ≤ clip01 w := le_max_left 0 _

theorem clip01_le_one (w : ℚ) : clip01 w ≤ 1 :=
  max_le (by norm_num) (min_le_left 1 w)

/-- Renormalizing a nonnegative triple with positive sum yields weights in
`[0,1]` summing exactly to 1. -/
theorem normTriple (a b c3 : ℚ) (ha : 0 ≤ a) (hb : 0 ≤ b) (hc : 0 ≤ c3)
    (ht : 0 < a + b + c3) :
    (0 ≤ a / (a + b + c3) ∧ a / (a + b + c3) ≤ 1) ∧
    (0 ≤ b / (a + b + c3) ∧ b / (a + b + c3) ≤ 1) ∧
    (0 ≤ c3 / (a + b + c3) ∧ c3 / (a + b + c3) ≤ 1) ∧
    a / (a + b + c3) + b / (a + b + c3) + c3 / (a + b + c3) = 1 := by
  refine ⟨⟨div_nonneg ha (le_of_lt ht), (div_le_one ht).mpr (by linarith)⟩,
    ⟨div_nonneg hb (le_of_lt ht), (div_le_one ht).mpr (by linarith)⟩,
    ⟨div_nonneg hc (le_of_lt ht), (div_le_one ht).mpr (by linarith)⟩, ?_⟩
  rw [div_add_div_same, div_add_div_same, div_self (ne_of_gt ht)]

/-- The constrained branch of `fpwTotal` always produces weights in `[0,1]`
summing exactly to 1. -/
theorem fpwTotal_bounds (tw fa pvh hcd pve expd : ℚ) (ow : Weights)
    (ltpz ib : ℚ) :
    (0 ≤ (fpwTotal tw fa pvh hcd pve expd ow ltpz ib true).stocks ∧
      (fpwTotal tw fa pvh hcd pve expd ow ltpz ib true).stocks ≤ 1) ∧
    (0 ≤ (fpwTotal tw fa pvh hcd pve expd ow ltpz ib true).bonds ∧
      (fpwTotal tw fa pvh hcd pve expd ow ltpz ib true).bonds ≤ 1) ∧
    (0 ≤ (fpwTotal tw fa pvh hcd pve expd ow ltpz ib true).cash ∧
      (fpwTotal tw fa pvh hcd pve expd ow ltpz ib true).cash ≤ 1) ∧
    (fpwTotal tw fa pvh hcd pve expd ow ltpz ib true).stocks +
      (fpwTotal tw fa pvh hcd pve expd ow ltpz ib true).bonds +
      (fpwTotal tw fa pvh hcd pve expd ow ltpz ib true).cash = 1 := by
  unfold fpwTotal
  by_cases hfa : fa ≤ 0
  · simp [hfa]
  · simp only [if_neg hfa, if_pos]
    split_ifs with ht
    · exact normTriple _ _ _ (clip01_nonneg _) (clip01_nonneg _) (clip01_nonneg _) ht
    · norm_num

/-! ## Claims about the portfolio optimizer -/

/-- Claim C1 (amended): for every call to `financial_portfolio_weights` with
`constrained = true` and `ltpz_duration ≠ 0`, the call returns, the returned
stocks/bonds/cash weights each lie in `[0, 1]` and sum to exactly 1 (hence
within the claimed `1e-9` tolerance), and, whenever `financial_assets > 0`
and all three clipped weights are 0, the result is exactly
`{stocks := 0, bonds := 0, cash := 1}`.  (The original claim quantified over
"any finite numeric inputs"; at `ltpz_duration = 0` the duration-split
division raises, so no weights are returned — see the counterexample.) -/
theorem claim_C1 (tw fa pvh hcd pve expd : ℚ) (ow : Weights) (ltpz ib : ℚ)
    (hl : ltpz ≠ 0) :
    (financial_portfolio_weights tw fa pvh hcd pve expd ow ltpz ib true).isSome ∧
    (0 ≤ (outW (financial_portfolio_weights tw fa pvh hcd pve expd ow ltpz ib true)).stocks ∧
      (outW (financial_portfolio_weights tw fa pvh hcd pve expd ow ltpz ib true)).stocks ≤ 1) ∧
    (0 ≤ (outW (financial_portfolio_weights tw fa pvh hcd pve expd ow ltpz ib true)).bonds ∧
      (outW (financial_portfolio_weights tw fa pvh hcd pve expd ow ltpz ib true)).bonds ≤ 1) ∧
    (0 ≤ (outW (financial_portfolio_weights tw fa pvh hcd pve expd ow ltpz ib true)).cash ∧
      (outW (financial_portfolio_weights tw fa pvh hcd pve expd ow ltpz ib true)).cash ≤ 1) ∧
    ((outW (financial_portfolio_weights tw fa pvh hcd pve expd ow ltpz ib true)).stocks +
      (outW (financial_portfolio_weights tw fa pvh hcd pve expd ow ltpz ib true)).bonds +
      (outW (financial_portfolio_weights tw fa pvh hcd pve expd ow ltpz ib true)).cash = 1) ∧
    (0 < fa →
      clip01 ((outW (financial_portfolio_weights tw fa pvh hcd pve expd ow ltpz ib false)).stocks) = 0 →
      clip01 ((outW (financial_portfolio_weights tw fa pvh hcd pve expd ow ltpz ib false)).bonds) = 0 →
      clip01 ((outW (financial_portfolio_weights tw fa pvh hcd pve expd ow ltpz ib false)).cash) = 0 →
      financial_portfolio_weights tw fa pvh hcd pve expd ow ltpz ib true =
        some ⟨0, 0, 1⟩) := by
  rw [financial_portfolio_weights_eval hl, financial_portfolio_weights_eval hl,
    outW_some, outW_some]
  obtain ⟨h1, h2, h3, h4⟩ := fpwTotal_bounds tw fa pvh hcd pve expd ow ltpz ib
  refine ⟨rfl, h1, h2, h3, h4, ?_⟩
  intro hfa hs hb hc
  have hfa' : ¬ fa ≤ 0 := not_le.mpr hfa
  unfold fpwTotal at hs hb hc ⊢
  simp only [if_neg hfa', Bool.false_eq_true, if_false, eq_self_iff_true,
    if_true] at hs hb hc ⊢
  rw [hs, hb, hc]
  norm_num

/-- Claim C1 counterexample: with `ltpz_duration = 0` and `constrained = true`
(and otherwise ordinary finite inputs), `financial_portfolio_weights` raises
(returns `none`), so there are no returned weights lying in `[0, 1]`. -/
theorem claim_C1_counterexample :
    financial_portfolio_weights 1 1 1 1 0 0 ⟨1, 0, 0⟩ 0 0 true = none := by
  decide

/-- Claim C1 witness at concrete inputs. -/
theorem claim_C1_witness :
    (1 : ℚ) ≠ 0 ∧
    ((financial_portfolio_weights 1 1 1 1 0 0 ⟨1, 0, 0⟩ 1 0 true).isSome ∧
    (0 ≤ (outW (financial_portfolio_weights 1 1 1 1 0 0 ⟨1, 0, 0⟩ 1 0 true)).stocks ∧
      (outW (financial_portfolio_weights 1 1 1 1 0 0 ⟨1, 0, 0⟩ 1 0 true)).stocks ≤ 1) ∧
    (0 ≤ (outW (financial_portfolio_weights 1 1 1 1 0 0 ⟨1, 0, 0⟩ 1 0 true)).bonds ∧
      (outW (financial_portfolio_weights 1 1 1 1 0 0 ⟨1, 0, 0⟩ 1 0 true)).bonds ≤ 1) ∧
    (0 ≤ (outW (financial_portfolio_weights 1 1 1 1 0 0 ⟨1, 0, 0⟩ 1 0 true)).cash ∧
      (outW (financial_portfolio_weights 1 1 1 1 0 0 ⟨1, 0, 0⟩ 1 0 true)).cash ≤ 1) ∧
    ((outW (financial_portfolio_weights 1 1 1 1 0 0 ⟨1, 0, 0⟩ 1 0 true)).stocks +
      (outW (financial_portfolio_weights 1 1 1 1 0 0 ⟨1, 0, 0⟩ 1 0 true)).bonds +
      (outW (financial_portfolio_weights 1 1 1 1 0 0 ⟨1, 0, 0⟩ 1 0 true)).cash = 1) ∧
    (0 < (1 : ℚ) →
      clip01 ((outW (financial_portfolio_weights 1 1 1 1 0 0 ⟨1, 0, 0⟩ 1 0 false)).stocks) = 0 →
      clip01 ((outW (financial_portfolio_weights 1 1 1 1 0 0 ⟨1, 0, 0⟩ 1 0 false)).bonds) = 0 →
      clip01 ((outW (financial_portfolio_weights 1 1 1 1 0 0 ⟨1, 0, 0⟩ 1 0 false)).cash) = 0 →
      financial_portfolio_weights 1 1 1 1 0 0 ⟨1, 0, 0⟩ 1 0 true = some ⟨0, 0, 1⟩)) :=
  ⟨by norm_num, claim_C1 1 1 1 1 0 0 ⟨1, 0, 0⟩ 1 0 (by norm_num)⟩

/-- Claim C2: for `risk_aversion > 0` and positive variances,
`optimal_total_wealth_weights` returns exactly the mean-variance formula
weights, with no clipping, and they sum to exactly 1. -/
theorem claim_C2 (γ ser ber sv bv : ℚ) (hγ : 0 < γ) (hsv : 0 < sv)
    (hbv : 0 < bv) :
    optimal_total_wealth_weights γ ser ber sv bv =
      some ⟨ser / (γ * sv), ber / (γ * bv),
        1 - ser / (γ * sv) - ber / (γ * bv)⟩ ∧
    (outW (optimal_total_wealth_weights γ ser ber sv bv)).stocks +
      (outW (optimal_total_wealth_weights γ ser ber sv bv)).bonds +
      (outW (optimal_total_wealth_weights γ ser ber sv bv)).cash = 1 := by
  have h1 : γ * sv ≠ 0 := ne_of_gt (mul_pos hγ hsv)
  have h2 : γ * bv ≠ 0 := ne_of_gt (mul_pos hγ hbv)
  rw [optimal_weights_eval h1 h2, outW_some]
  exact ⟨rfl, by unfold optimalWeightsT; ring⟩

/-- Claim C2 witness at concrete inputs. -/
theorem claim_C2_witness :
    (0 : ℚ) < 1 ∧
    (optimal_total_wealth_weights 1 1 1 1 1 =
      some ⟨1 / (1 * 1), 1 / (1 * 1), 1 - 1 / (1 * 1) - 1 / (1 * 1)⟩ ∧
    (outW (optimal_total_wealth_weights 1 1 1 1 1)).stocks +
      (outW (optimal_total_wealth_weights 1 1 1 1 1)).bonds +
      (outW (optimal_total_wealth_weights 1 1 1 1 1)).cash = 1) :=
  ⟨by norm_num, claim_C2 1 1 1 1 1 (by norm_num) (by norm_num) (by norm_num)⟩

/-- Claim C6 (amended): with `financial_assets ≤ 0` and `ltpz_duration ≠ 0`,
`financial_portfolio_weights` returns exactly `{stocks 0, bonds 0, cash 1}`,
for either value of `constrained` and all other arguments.  (The original
"regardless of all other arguments" fails at `ltpz_duration = 0`: the
duration-split division raises before the short-circuit — see the
counterexample.) -/
theorem claim_C6 (tw fa pvh hcd pve expd : ℚ) (ow : Weights) (ltpz ib : ℚ)
    (c : Bool) (hfa : fa ≤ 0) (hl : ltpz ≠ 0) :
    financial_portfolio_weights tw fa pvh hcd pve expd ow ltpz ib c =
      some ⟨0, 0, 1⟩ := by
  rw [financial_portfolio_weights_eval hl]
  unfold fpwTotal
  simp [hfa]

/-- Claim C6 counterexample: with `financial_assets = 0` but
`ltpz_duration = 0`, the function raises (returns `none`) rather than
returning `{0, 0, 1}`, so the "regardless of all other arguments" clause
fails. -/
theorem claim_C6_counterexample :
    financial_portfolio_weights 1 0 1 1 0 0 ⟨1, 0, 0⟩ 0 0 true = none := by
  decide

/-- Claim C6 witness at concrete inputs (`financial_assets = 0`, positive
total wealth). -/
theorem claim_C6_witness :
    (0 : ℚ) ≤ 0 ∧ (1 : ℚ) ≠ 0 ∧
    financial_portfolio_weights 1 0 1 1 0 0 ⟨1, 0, 0⟩ 1 0 true =
      some ⟨0, 0, 1⟩ :=
  ⟨le_refl 0, by norm_num,
    claim_C6 1 0 1 1 0 0 ⟨1, 0, 0⟩ 1 0 true (le_refl 0) (by norm_num)⟩

/-- Claim C8 (amended): holding the other inputs fixed with
`stock_excess_return > 0`, `bond_excess_return ≥ 0`, and positive variances,
increasing `risk_aversion` strictly decreases the stocks weight and strictly
increases the cash weight of `optimal_total_wealth_weights`.  (The original
claim, quantified over arbitrary fixed excess returns, fails when
`stock_excess_return = 0`: the stocks weight is then constant in γ — see the
counterexample.) -/
theorem claim_C8 (γ1 γ2 ser ber sv bv : ℚ) (hγ1 : 0 < γ1) (hγ : γ1 < γ2)
    (hser : 0 < ser) (hber : 0 ≤ ber) (hsv : 0 < sv) (hbv : 0 < bv) :
    (optimal_total_wealth_weights γ1 ser ber sv bv).isSome ∧
    (optimal_total_wealth_weights γ2 ser ber sv bv).isSome ∧
    (outW (optimal_total_wealth_weights γ2 ser ber sv bv)).stocks <
      (outW (optimal_total_wealth_weights γ1 ser ber sv bv)).stocks ∧
    (outW (optimal_total_wealth_weights γ1 ser ber sv bv)).cash <
      (outW (optimal_total_wealth_weights γ2 ser ber sv bv)).cash := by
  have hγ2 : 0 < γ2 := lt_trans hγ1 hγ
  have h1s : γ1 * sv ≠ 0 := ne_of_gt (mul_pos hγ1 hsv)
  have h1b : γ1 * bv ≠ 0 := ne_of_gt (mul_pos hγ1 hbv)
  have h2s : γ2 * sv ≠ 0 := ne_of_gt (mul_pos hγ2 hsv)
  have h2b : γ2 * bv ≠ 0 := ne_of_gt (mul_pos hγ2 hbv)
  rw [optimal_weights_eval h1s h1b, optimal_weights_eval h2s h2b,
    outW_some, outW_some]
  have hstocks : ser / (γ2 * sv) < ser / (γ1 * sv) :=
    div_lt_div_of_pos_left hser (mul_pos hγ1 hsv)
      (mul_lt_mul_of_pos_right hγ hsv)
  have hbonds : ber / (γ2 * bv) ≤ ber / (γ1 * bv) :=
    div_le_div_of_nonneg_left hber (mul_pos hγ1 hbv)
      (le_of_lt (mul_lt_mul_of_pos_right hγ hbv))
  refine ⟨rfl, rfl, ?_, ?_⟩
  · exact hstocks
  · unfold optimalWeightsT
    simp only
    linarith

/-- Claim C8 counterexample: with both excess returns 0 (and unit variances),
the stocks weight is 0 at both `γ = 1` and `γ = 2`, so it does not strictly
decrease, and the cash weight is 1 at both, so it does not strictly
increase. -/
theorem claim_C8_counterexample :
    (0 : ℚ) < 1 ∧ (1 : ℚ) < 2 ∧
    optimal_total_wealth_weights 1 0 0 1 1 = some ⟨0, 0, 1⟩ ∧
    optimal_total_wealth_weights 2 0 0 1 1 = some ⟨0, 0, 1⟩ ∧
    ¬ ((outW (optimal_total_wealth_weights 2 0 0 1 1)).stocks <
        (outW (optimal_total_wealth_weights 1 0 0 1 1)).stocks) ∧
    ¬ ((outW (optimal_total_wealth_weights 1 0 0 1 1)).cash <
        (outW (optimal_total_wealth_weights 2 0 0 1 1)).cash) := by
  have e1 : optimal_total_wealth_weights 1 0 0 1 1 = some ⟨0, 0, 1⟩ := by
    norm_num [optimal_total_wealth_weights, pydiv]
  have e2 : optimal_total_wealth_weights 2 0 0 1 1 = some ⟨0, 0, 1⟩ := by
    norm_num [optimal_total_wealth_weights, pydiv]
  refine ⟨by norm_num, by norm_num, e1, e2, ?_, ?_⟩
  · rw [e1, e2]
    norm_num [outW]
  · rw [e1, e2]
    norm_num [outW]

/-- Claim C8 witness at concrete inputs. -/
theorem claim_C8_witness :
    (0 : ℚ) < 1 ∧ (1 : ℚ) < 2 ∧ (0 : ℚ) < 1 ∧
    ((optimal_total_wealth_weights 1 1 0 1 1).isSome ∧
    (optimal_total_wealth_weights 2 1 0 1 1).isSome ∧
    (outW (optimal_total_wealth_weights 2 1 0 1 1)).stocks <
      (outW (optimal_total_wealth_weights 1 1 0 1 1)).stocks ∧
    (outW (optimal_total_wealth_weights 1 1 0 1 1)).cash <
      (outW (optimal_total_wealth_weights 2 1 0 1 1)).cash) :=
  ⟨by norm_num, by norm_num, by norm_num,
    claim_C8 1 2 1 0 1 1 (by norm_num) (by norm_num) (by norm_num)
      (by norm_num) (by norm_num) (by norm_num)⟩

/-- Claim C9: `pv_annuity(100000, 0.02, 50)` returns, and its value is within
0.1 percent of 3142360.59. -/
theorem claim_C9 :
    (pv_annuity 100000 (2 / 100) 50).isSome ∧
    |(pv_annuity 100000 (2 / 100) 50).getD 0 - 314236059 / 100| ≤
      (1 / 1000) * (314236059 / 100) := by
  have h : (1 : ℚ) + 2 / 100 ≠ 0 := by norm_num
  rw [pv_annuity_eval h]
  refine ⟨rfl, ?_⟩
  show |pvAnnuityT 100000 (2 / 100) 50 - 314236059 / 100| ≤
    (1 / 1000) * (314236059 / 100)
  rw [show pvAnnuityT 100000 (2 / 100) 50 =
      100000 * ((1 - (1 + 2 / 100) ^ (-(50 : ℤ))) / (2 / 100)) from by
    norm_num [pvAnnuityT]]
  rw [abs_le]
  constructor <;> norm_num

/-- Claim C10 (implicit): with `constrained = false`, positive financial
assets, optimal weights summing to 1, and `total_wealth` equal to
`financial_assets + pv_human_capital - pv_expenses`, whenever the call
returns, the returned unconstrained weights sum to exactly 1: the
duration-based splits and the income-beta stock split cancel, leaving
`financial_assets / financial_assets`. -/
theorem claim_C10 (fa pvh hcd pve expd : ℚ) (ow : Weights) (ltpz ib : ℚ)
    (hfa : 0 < fa) (hsum : ow.stocks + ow.bonds + ow.cash = 1)
    (hs : (financial_portfolio_weights (total_wealth fa pvh pve) fa pvh hcd
      pve expd ow ltpz ib false).isSome) :
    (outW (financial_portfolio_weights (total_wealth fa pvh pve) fa pvh hcd
      pve expd ow ltpz ib false)).stocks +
    (outW (financial_portfolio_weights (total_wealth fa pvh pve) fa pvh hcd
      pve expd ow ltpz ib false)).bonds +
    (outW (financial_portfolio_weights (total_wealth fa pvh pve) fa pvh hcd
      pve expd ow ltpz ib false)).cash = 1 := by
  have hl : ltpz ≠ 0 := by
    intro h0
    subst h0
    simp [financial_portfolio_weights, pydiv] at hs
  rw [financial_portfolio_weights_eval hl, outW_some]
  have hfa' : ¬ fa ≤ 0 := not_le.mpr hfa
  unfold fpwTotal
  simp only [if_neg hfa', Bool.false_eq_true, if_false]
  rw [div_add_div_same, div_add_div_same, div_eq_one_iff_eq (ne_of_gt hfa)]
  unfold total_wealth
  linear_combination (fa + pvh - pve) * hsum

/-- Claim C10 witness at concrete inputs. -/
theorem claim_C10_witness :
    (0 : ℚ) < 1 ∧
    (outW (financial_portfolio_weights (total_wealth 1 0 0) 1 0 0 0 0
      ⟨1, 0, 0⟩ 1 0 false)).stocks +
    (outW (financial_portfolio_weights (total_wealth 1 0 0) 1 0 0 0 0
      ⟨1, 0, 0⟩ 1 0 false)).bonds +
    (outW (financial_portfolio_weights (total_wealth 1 0 0) 1 0 0 0 0
      ⟨1, 0, 0⟩ 1 0 false)).cash = 1 :=
  ⟨by norm_num,
    claim_C10 1 0 0 0 0 ⟨1, 0, 0⟩ 1 0 (by norm_num) (by norm_num)
      (by norm_num [financial_portfolio_weights, pydiv, total_wealth])⟩

/-! ## Claims about `pv_annuity` monotonicity -/

/-- For rates above -100 percent, `pv_annuity` returns the closed geometric
sum `payment * Σ_{k=1..n} (1/(1+rate))^k` (both the `rate = 0` branch and
the general branch agree with it). -/
theorem pv_annuity_sum {p r : ℚ} {n : ℤ} (hr : -1 < r) (hn : 1 ≤ n) :
    pv_annuity p r n =
      some (p * ∑ k in Finset.range n.toNat, (1 / (1 + r)) ^ (k + 1)) := by
  have h1 : (0 : ℚ) < 1 + r := by linarith
  have h1' : (1 : ℚ) + r ≠ 0 := ne_of_gt h1
  have hn0 : ¬ n ≤ 0 := by omega
  have hm : (n.toNat : ℤ) = n := Int.toNat_of_nonneg (by omega)
  by_cases hr0 : r = 0
  · subst hr0
    unfold pv_annuity
    rw [if_neg hn0, if_pos rfl]
    congr 1
    rw [show (1 : ℚ) / (1 + 0) = 1 by norm_num]
    simp only [one_pow, Finset.sum_const, Finset.card_range, nsmul_eq_mul,
      mul_one]
    have : ((n.toNat : ℚ)) = (n : ℚ) := by exact_mod_cast congrArg Int.cast hm
    rw [this]
  · unfold pv_annuity
    rw [if_neg hn0, if_neg hr0, pyzpow_eval h1']
    simp only [Option.map_some']
    congr 1
    have hx1 : (1 : ℚ) / (1 + r) ≠ 1 := by
      intro hc
      apply hr0
      field_simp at hc
      linarith
    have hzp : (1 + r) ^ (-n) = ((1 : ℚ) / (1 + r)) ^ n.toNat := by
      rw [zpow_neg, one_div, inv_pow, ← zpow_natCast (1 + r) n.toNat, hm]
    have hgeom : ∑ k in Finset.range n.toNat, ((1 : ℚ) / (1 + r)) ^ (k + 1)
        = (1 / (1 + r)) * ∑ k in Finset.range n.toNat, ((1 : ℚ) / (1 + r)) ^ k := by
      rw [Finset.mul_sum]
      refine Finset.sum_congr rfl fun k _ => ?_
      rw [pow_succ']
    rw [hzp, hgeom, geom_sum_eq hx1]
    have hsub : (1 : ℚ) / (1 + r) - 1 ≠ 0 := sub_ne_zero.mpr hx1
    field_simp
    ring

/-- Claim C7 (amended): for fixed positive payment and `n_periods ≥ 1`,
`pv_annuity` is strictly decreasing in the discount rate on rates `> -1`
(i.e. above -100 percent).  (The original claim over all rate pairs fails
across the pole at `rate = -1` — see the counterexample.) -/
theorem claim_C7 (p r1 r2 : ℚ) (n : ℤ) (hp : 0 < p) (hn : 1 ≤ n)
    (h1 : -1 < r1) (h12 : r1 < r2) :
    (pv_annuity p r1 n).isSome ∧ (pv_annuity p r2 n).isSome ∧
    (pv_annuity p r2 n).getD 0 < (pv_annuity p r1 n).getD 0 := by
  have h2 : (-1 : ℚ) < r2 := lt_trans h1 h12
  rw [pv_annuity_sum h1 hn, pv_annuity_sum h2 hn]
  refine ⟨rfl, rfl, ?_⟩
  simp only [Option.getD_some]
  apply mul_lt_mul_of_pos_left ?_ hp
  apply Finset.sum_lt_sum_of_nonempty
  · rw [Finset.nonempty_range_iff]
    omega
  · intro k _
    have h1p : (0 : ℚ) < 1 + r1 := by linarith
    have h2p : (0 : ℚ) < 1 + r2 := by linarith
    have hxx : (1 : ℚ) / (1 + r2) < 1 / (1 + r1) :=
      div_lt_div_of_pos_left one_pos h1p (by linarith)
    have hx2 : (0 : ℚ) ≤ 1 / (1 + r2) := by positivity
    exact pow_lt_pow_left₀ hxx hx2 (Nat.succ_ne_zero k)

/-- Claim C7 counterexample: across the pole at `rate = -1` the claimed
monotonicity reverses: with payment 1, one period, rates `-3/2 < -1/2`,
the PV at the smaller rate is `-2` and at the larger rate `2`, so the PV at
the smaller rate is not greater. -/
theorem claim_C7_counterexample :
    (0 : ℚ) < 1 ∧ (1 : ℤ) ≤ 1 ∧ (-3 / 2 : ℚ) < -1 / 2 ∧
    pv_annuity 1 (-3 / 2) 1 = some (-2) ∧
    pv_annuity 1 (-1 / 2) 1 = some 2 ∧
    ¬ ((pv_annuity 1 (-1 / 2) 1).getD 0 < (pv_annuity 1 (-3 / 2) 1).getD 0) := by
  have e1 : pv_annuity 1 (-3 / 2) 1 = some (-2) := by
    norm_num [pv_annuity, pyzpow]
  have e2 : pv_annuity 1 (-1 / 2) 1 = some 2 := by
    norm_num [pv_annuity, pyzpow]
  refine ⟨by norm_num, le_refl 1, by norm_num, e1, e2, ?_⟩
  rw [e1, e2]
  norm_num

/-- Claim C7 witness at concrete inputs. -/
theorem claim_C7_witness :
    (0 : ℚ) < 1 ∧ (1 : ℤ) ≤ 1 ∧ (-1 : ℚ) < 0 ∧ (0 : ℚ) < 1 ∧
    ((pv_annuity 1 0 1).isSome ∧ (pv_annuity 1 1 1).isSome ∧
    (pv_annuity 1 1 1).getD 0 < (pv_annuity 1 0 1).getD 0) :=
  ⟨by norm_num, le_refl 1, by norm_num, by norm_num,
    claim_C7 1 0 1 1 (by norm_num) (le_refl 1) (by norm_num) (by norm_num)⟩

/-! ## Totality lemmas -/

theorem pv_annuity_isSome {p rate : ℚ} {n : ℤ} (h : (1 : ℚ) + rate ≠ 0) :
    (pv_annuity p rate n).isSome := by
  rw [pv_annuity_eval h]
  rfl

theorem pv_human_capital_isSome {inc : ℚ} {yw : ℤ} {rfr ib ep : ℚ}
    (h : (1 : ℚ) + (rfr + ib * ep) ≠ 0) :
    (pv_human_capital inc yw rfr ib ep).isSome := by
  unfold pv_human_capital
  exact pv_annuity_isSome h

theorem pv_expenses_isSome {we re : ℚ} {yw yr : ℤ} {r : ℚ}
    (h : (1 : ℚ) + r ≠ 0) : (pv_expenses we re yw yr r).isSome := by
  rw [pv_expenses_eval h]
  rfl

theorem annuity_duration_isSome {rate : ℚ} {n : ℤ} (h : 0 < 1 + rate) :
    (annuity_duration rate n).isSome := by
  rw [annuity_duration_eval h]
  rfl

theorem human_capital_duration_isSome {yw : ℤ} {r : ℚ} (h : 0 < 1 + r) :
    (human_capital_duration yw r).isSome := by
  unfold human_capital_duration
  exact annuity_duration_isSome h

theorem expense_duration_isSome {yw yr : ℤ} {we re r : ℚ} (h : 0 < 1 + r) :
    (expense_duration yw yr we re r).isSome := by
  rw [expense_duration_eval h]
  rfl

theorem optimal_weights_isSome {γ ser ber sv bv : ℚ} (h1 : γ * sv ≠ 0)
    (h2 : γ * bv ≠ 0) : (optimal_total_wealth_weights γ ser ber sv bv).isSome := by
  rw [optimal_weights_eval h1 h2]
  rfl

theorem financial_portfolio_weights_isSome {tw fa pvh hcd pve expd : ℚ}
    {ow : Weights} {ltpz ib : ℚ} {c : Bool} (hl : ltpz ≠ 0) :
    (financial_portfolio_weights tw fa pvh hcd pve expd ow ltpz ib c).isSome := by
  rw [financial_portfolio_weights_eval hl]
  rfl

theorem hcPair_eval {inc : ℚ} {yw : ℤ} {r : ℚ} (h : 0 < 1 + r) :
    hcPair inc yw r = some (hcPairT inc yw r) := by
  have h' : (1 : ℚ) + r ≠ 0 := ne_of_gt h
  unfold hcPair hcPairT pv_human_capital
  by_cases h0 : 0 < yw
  · rw [if_pos h0, if_pos h0]
    rw [show r + 0 * STOCK_EXCESS_RETURN = r from by ring]
    rw [pv_annuity_eval h', annuity_duration_eval h]
    rfl
  · rw [if_neg h0, if_neg h0]

theorem glideStep_isSome (P : GlideParams) (age : ℤ) (fw : ℚ)
    (hr : 0 < 1 + P.risk_free_rate) (hl : P.ltpz_duration ≠ 0) :
    (glideStep P age fw).isSome := by
  simp only [glideStep, hcPair_eval hr, pv_expenses_eval (ne_of_gt hr),
    expense_duration_eval hr, financial_portfolio_weights_eval hl,
    Option.bind_eq_bind, someBindEq]
  rfl

theorem glideLoop_isSome (P : GlideParams) (hr : 0 < 1 + P.risk_free_rate)
    (hl : P.ltpz_duration ≠ 0) :
    ∀ (fuel : ℕ) (age : ℤ) (fw : ℚ), (glideLoop P fuel age fw).isSome := by
  intro fuel
  induction fuel with
  | zero => intro age fw; rfl
  | succ n ih =>
      intro age fw
      obtain ⟨step, hstep⟩ :=
        Option.isSome_iff_exists.1 (glideStep_isSome P age fw hr hl)
      obtain ⟨rest, hrest⟩ := Option.isSome_iff_exists.1 (ih (age + 1) step.2)
      simp only [glideLoop, hstep, hrest, Option.bind_eq_bind, someBindEq]
      rfl

theorem compute_glide_path_isSome (ca ra le : ℤ)
    (inc we re fa0 γ ib rfr ser ber vs vb ltpz sgr bgr cr : ℚ)
    (hr : 0 < 1 + rfr) (hγs : γ * vs ^ 2 ≠ 0) (hγb : γ * vb ^ 2 ≠ 0)
    (hl : ltpz ≠ 0) :
    (compute_glide_path ca ra le inc we re fa0 γ ib rfr ser ber vs vb ltpz
      sgr bgr cr).isSome := by
  simp only [compute_glide_path, optimal_weights_eval hγs hγb,
    Option.bind_eq_bind, someBindEq]
  exact glideLoop_isSome _ hr hl _ _ _

/-! ## Structural lemmas about the glide-path loop -/

/-- Projections of a successful `glideStep`: the emitted snapshot carries this
year's age, horizon, and financial wealth, and the carried wealth follows the
`max(0, fw * (1 + portfolio_return) + annual_cashflow)` recurrence expressed
in the snapshot's own fields. -/
theorem glideStep_spec {P : GlideParams} {age : ℤ} {fw : ℚ} {s : Snapshot}
    {f2 : ℚ} (h : glideStep P age fw = some (s, f2)) :
    s.age = age ∧ s.years_to_retirement = max 0 (P.retirement_age - age) ∧
    s.financial_wealth = fw ∧
    f2 = max 0 (fw * (1 + (s.stock_weight * P.stock_geo_return +
      s.bond_weight * P.bond_geo_return + s.cash_weight * P.cash_return)) +
      (if 0 < s.years_to_retirement then
        P.annual_income - P.working_expenses else -P.retirement_expenses)) := by
  simp only [glideStep, Option.bind_eq_bind, Option.bind_eq_some, Option.pure_def,
    Option.some.injEq, Prod.mk.injEq] at h
  obtain ⟨hc, hhc, exp_pv, hexp, exp_dur, hdur, fin, hfin, hs, hf⟩ := h
  subst hs
  subst hf
  exact ⟨rfl, rfl, rfl, rfl⟩

/-- A successful `glideStep` at an age at or past retirement emits a snapshot
with human-capital PV exactly 0. -/
theorem glideStep_hc {P : GlideParams} {age : ℤ} {fw : ℚ} {s : Snapshot}
    {f2 : ℚ} (h : glideStep P age fw = some (s, f2))
    (hra : P.retirement_age ≤ age) : s.pv_human_capital = 0 := by
  have hmax : max 0 (P.retirement_age - age) = 0 := by omega
  simp only [glideStep, Option.bind_eq_bind, Option.bind_eq_some, Option.pure_def,
    Option.some.injEq, Prod.mk.injEq] at h
  obtain ⟨hc, hhc, exp_pv, hexp, exp_dur, hdur, fin, hfin, hs, hf⟩ := h
  rw [hmax] at hhc
  simp only [hcPair, lt_irrefl, if_false, Option.some.injEq] at hhc
  subst hs
  simp [← hhc]

/-- Destructuring a successful non-empty `glideLoop` run into its first step
and the remaining run. -/
theorem glideLoop_succ_eq {P : GlideParams} {fuel : ℕ} {age : ℤ} {fw : ℚ}
    {l : List Snapshot} (h : glideLoop P (fuel + 1) age fw = some l) :
    ∃ s f2 rest, glideStep P age fw = some (s, f2) ∧
      glideLoop P fuel (age + 1) f2 = some rest ∧ l = s :: rest := by
  simp only [glideLoop, Option.bind_eq_bind, Option.bind_eq_some, Option.pure_def,
    Option.some.injEq] at h
  obtain ⟨a, ha, b, hb, heq⟩ := h
  refine ⟨a.1, a.2, b, ?_, hb, heq.symm⟩
  rwa [Prod.mk.eta]

/-- The head of a successful `glideLoop` run carries the initial wealth and
age of the run. -/
theorem glideLoop_head {P : GlideParams} {fuel : ℕ} {age : ℤ} {fw : ℚ}
    {s : Snapshot} {rest : List Snapshot}
    (h : glideLoop P fuel age fw = some (s :: rest)) :
    s.financial_wealth = fw ∧ s.age = age := by
  cases fuel with
  | zero => simp [glideLoop] at h
  | succ n =>
      obtain ⟨s0, f2, r, hstep, _, heq⟩ := glideLoop_succ_eq h
      obtain ⟨h1, _⟩ := List.cons.injEq .. |>.mp heq.symm
      subst h1
      obtain ⟨ha, _, hfw, _⟩ := glideStep_spec hstep
      exact ⟨hfw, ha⟩

/-- Adjacent snapshots of any successful `glideLoop` run satisfy the
financial-wealth recurrence. -/
theorem glideLoop_adjacent (P : GlideParams) :
    ∀ (fuel : ℕ) (age : ℤ) (fw : ℚ) (l : List Snapshot),
      glideLoop P fuel age fw = some l →
      ∀ (i : ℕ) (s s' : Snapshot), l[i]? = some s → l[i + 1]? = some s' →
        s'.financial_wealth =
          max 0 (s.financial_wealth * (1 + (s.stock_weight * P.stock_geo_return +
            s.bond_weight * P.bond_geo_return + s.cash_weight * P.cash_return)) +
            (if 0 < s.years_to_retirement then
              P.annual_income - P.working_expenses
            else -P.retirement_expenses)) := by
  intro fuel
  induction fuel with
  | zero =>
      intro age fw l h i s s' hs hs'
      simp only [glideLoop, Option.some.injEq] at h
      subst h
      simp at hs
  | succ n ih =>
      intro age fw l h i s s' hs hs'
      obtain ⟨s0, f2, rest, hstep, hloop, rfl⟩ := glideLoop_succ_eq h
      cases i with
      | zero =>
          simp only [List.getElem?_cons_zero, Option.some.injEq] at hs
          subst hs
          simp only [List.getElem?_cons_succ] at hs'
          rcases rest with _ | ⟨r0, rtail⟩
          · simp at hs'
          · simp only [List.getElem?_cons_zero, Option.some.injEq] at hs'
            subst hs'
            obtain ⟨hfw, _⟩ := glideLoop_head hloop
            obtain ⟨_, _, hsfw, hf2⟩ := glideStep_spec hstep
            rw [hfw, hf2, hsfw]
      | succ j =>
          simp only [List.getElem?_cons_succ] at hs hs'
          exact ih (age + 1) f2 rest hloop j s s' hs hs'

/-- Every snapshot of a successful `glideLoop` run has age at least the
starting age, and snapshots at or past retirement age have zero
human-capital PV. -/
theorem glideLoop_mem_hc (P : GlideParams) :
    ∀ (fuel : ℕ) (age : ℤ) (fw : ℚ) (l : List Snapshot),
      glideLoop P fuel age fw = some l →
      ∀ s ∈ l, age ≤ s.age ∧
        (P.retirement_age ≤ s.age → s.pv_human_capital = 0) := by
  intro fuel
  induction fuel with
  | zero =>
      intro age fw l h s hs
      simp only [glideLoop, Option.some.injEq] at h
      subst h
      simp at hs
  | succ n ih =>
      intro age fw l h s hs
      obtain ⟨s0, f2, rest, hstep, hloop, rfl⟩ := glideLoop_succ_eq h
      rcases List.mem_cons.mp hs with rfl | hmem
      · obtain ⟨ha, _, _, _⟩ := glideStep_spec hstep
        refine ⟨le_of_eq ha.symm, fun hra => ?_⟩
        exact glideStep_hc hstep (by omega)
      · obtain ⟨hage, hhc⟩ := ih (age + 1) f2 rest hloop s hmem
        exact ⟨by omega, hhc⟩

/-! ## Claims about the glide path and core totality -/

set_option maxHeartbeats 1600000 in
/-- Concrete evaluation of a tiny two-year glide path (ages 1..2, retirement
at 2, zero rates), used by witnesses. -/
theorem glide_path_tiny_eval :
    compute_glide_path 1 2 2 2 1 1 1 1 0 0 0 0 1 1 1 0 0 0 =
      some [⟨1, 1, 2, 1, 2, 1, 0, 0, 1⟩, ⟨2, 0, 0, 0, 2, 2, 0, 0, 1⟩] := by
  norm_num [compute_glide_path, glideLoop, glideStep, hcPair, pv_human_capital,
    pv_expenses, expense_duration, annuity_duration, pv_annuity,
    financial_portfolio_weights, optimal_total_wealth_weights, pydiv, pyzpow,
    clip01, STOCK_EXCESS_RETURN]

/-- Claim C4: in any successful `compute_glide_path` run, each snapshot's
financial wealth carried into the next emitted snapshot equals
`max(0, fw * (1 + portfolio_return) + annual_cashflow)`, where the portfolio
return uses that year's constrained weights and the cashflow is
`annual_income - working_expenses` while still working and
`-retirement_expenses` afterwards. -/
theorem claim_C4 (ca ra le : ℤ)
    (inc we re fa γ ib rfr ser ber vs vb ltpz sgr bgr cr : ℚ)
    (l : List Snapshot) (i : ℕ) (s s' : Snapshot)
    (h : compute_glide_path ca ra le inc we re fa γ ib rfr ser ber vs vb ltpz
      sgr bgr cr = some l)
    (hs : l[i]? = some s) (hs' : l[i + 1]? = some s') :
    s'.financial_wealth =
      max 0 (s.financial_wealth * (1 + (s.stock_weight * sgr +
        s.bond_weight * bgr + s.cash_weight * cr)) +
        (if 0 < s.years_to_retirement then inc - we else -re)) := by
  simp only [compute_glide_path, Option.bind_eq_bind, Option.bind_eq_some] at h
  obtain ⟨ow, how, hloop⟩ := h
  exact glideLoop_adjacent _ _ _ _ _ hloop i s s' hs hs'

/-- Claim C4 witness on the tiny concrete glide path. -/
theorem claim_C4_witness :
    compute_glide_path 1 2 2 2 1 1 1 1 0 0 0 0 1 1 1 0 0 0 =
      some [⟨1, 1, 2, 1, 2, 1, 0, 0, 1⟩, ⟨2, 0, 0, 0, 2, 2, 0, 0, 1⟩] ∧
    ([⟨1, 1, 2, 1, 2, 1, 0, 0, 1⟩,
      ⟨2, 0, 0, 0, 2, 2, 0, 0, 1⟩] : List Snapshot)[0]? =
        some ⟨1, 1, 2, 1, 2, 1, 0, 0, 1⟩ ∧
    ([⟨1, 1, 2, 1, 2, 1, 0, 0, 1⟩,
      ⟨2, 0, 0, 0, 2, 2, 0, 0, 1⟩] : List Snapshot)[1]? =
        some ⟨2, 0, 0, 0, 2, 2, 0, 0, 1⟩ ∧
    (⟨2, 0, 0, 0, 2, 2, 0, 0, 1⟩ : Snapshot).financial_wealth =
      max 0 ((⟨1, 1, 2, 1, 2, 1, 0, 0, 1⟩ : Snapshot).financial_wealth *
        (1 + ((⟨1, 1, 2, 1, 2, 1, 0, 0, 1⟩ : Snapshot).stock_weight * 0 +
          (⟨1, 1, 2, 1, 2, 1, 0, 0, 1⟩ : Snapshot).bond_weight * 0 +
          (⟨1, 1, 2, 1, 2, 1, 0, 0, 1⟩ : Snapshot).cash_weight * 0)) +
        (if 0 < (⟨1, 1, 2, 1, 2, 1, 0, 0, 1⟩ : Snapshot).years_to_retirement
          then 2 - 1 else -1)) :=
  ⟨glide_path_tiny_eval, rfl, rfl,
    claim_C4 1 2 2 2 1 1 1 1 0 0 0 0 1 1 1 0 0 0 _ 0 _ _
      glide_path_tiny_eval rfl rfl⟩

/-- Claim C5: in every successful `compute_glide_path` run, every emitted
snapshot with age at or past `retirement_age` has `pv_human_capital` exactly
0, and the human-capital PV/duration pair used for that year's allocation is
exactly `(0, 0)`. -/
theorem claim_C5 (ca ra le : ℤ)
    (inc we re fa γ ib rfr ser ber vs vb ltpz sgr bgr cr : ℚ)
    (l : List Snapshot) (s : Snapshot)
    (h : compute_glide_path ca ra le inc we re fa γ ib rfr ser ber vs vb ltpz
      sgr bgr cr = some l)
    (hs : s ∈ l) (hage : ra ≤ s.age) :
    s.pv_human_capital = 0 ∧
    hcPair inc (max 0 (ra - s.age)) rfr = some (0, 0) := by
  constructor
  · simp only [compute_glide_path, Option.bind_eq_bind, Option.bind_eq_some] at h
    obtain ⟨ow, how, hloop⟩ := h
    exact (glideLoop_mem_hc _ _ _ _ _ hloop s hs).2 hage
  · rw [show max 0 (ra - s.age) = 0 by omega]
    simp [hcPair]

/-- Claim C5 witness: the retirement-age snapshot of the tiny glide path. -/
theorem claim_C5_witness :
    (2 : ℤ) ≤ 2 ∧
    ((⟨2, 0, 0, 0, 2, 2, 0, 0, 1⟩ : Snapshot).pv_human_capital = 0 ∧
      hcPair 2 (max 0 (2 - (⟨2, 0, 0, 0, 2, 2, 0, 0, 1⟩ : Snapshot).age)) 0 =
        some (0, 0)) :=
  ⟨le_refl 2,
    claim_C5 1 2 2 2 1 1 1 1 0 0 0 0 1 1 1 0 0 0 _ _
      glide_path_tiny_eval (by simp) (le_refl 2)⟩

/-- Claim C3 (amended): each core function returns a value (no exception)
provided its divisors are nonzero: discount rates above -100 percent
(`0 < 1 + rate`), a human-capital discount rate with `1 + rate + β·premium ≠ 0`,
`risk_aversion * variance ≠ 0` for the optimizer, and `ltpz_duration ≠ 0` for
the financial weights and the glide path.  (The original claim — totality on
every finite numeric input — fails, e.g. at `risk_aversion = 0`, where the
optimizer divides by zero — see the counterexample.) -/
theorem claim_C3 (payment rate : ℚ) (n : ℤ) (annual_income : ℚ)
    (years_working years_retirement : ℤ)
    (income_beta equity_premium working_expenses retirement_expenses : ℚ)
    (γ ser ber sv bv tw fa pvh hcd pve expd : ℚ) (ow : Weights)
    (ltpz ib : ℚ) (c : Bool) (ca ra le : ℤ) (fa0 vs vb sgr bgr cr : ℚ)
    (hrate : 0 < 1 + rate)
    (hhc : (1 : ℚ) + (rate + income_beta * equity_premium) ≠ 0)
    (hγs : γ * sv ≠ 0) (hγb : γ * bv ≠ 0)
    (hvs : γ * vs ^ 2 ≠ 0) (hvb : γ * vb ^ 2 ≠ 0) (hl : ltpz ≠ 0) :
    (pv_annuity payment rate n).isSome ∧
    (pv_human_capital annual_income years_working rate income_beta
      equity_premium).isSome ∧
    (pv_expenses working_expenses retirement_expenses years_working
      years_retirement rate).isSome ∧
    (annuity_duration rate n).isSome ∧
    (human_capital_duration years_working rate).isSome ∧
    (expense_duration years_working years_retirement working_expenses
      retirement_expenses rate).isSome ∧
    (optimal_total_wealth_weights γ ser ber sv bv).isSome ∧
    (financial_portfolio_weights tw fa pvh hcd pve expd ow ltpz ib c).isSome ∧
    (compute_glide_path ca ra le annual_income working_expenses
      retirement_expenses fa0 γ ib rate ser ber vs vb ltpz sgr bgr cr).isSome :=
  ⟨pv_annuity_isSome (ne_of_gt hrate), pv_human_capital_isSome hhc,
    pv_expenses_isSome (ne_of_gt hrate), annuity_duration_isSome hrate,
    human_capital_duration_isSome hrate, expense_duration_isSome hrate,
    optimal_weights_isSome hγs hγb, financial_portfolio_weights_isSome hl,
    compute_glide_path_isSome ca ra le annual_income working_expenses
      retirement_expenses fa0 γ ib rate ser ber vs vb ltpz sgr bgr cr
      hrate hvs hvb hl⟩

/-- Claim C3 counterexample: at `risk_aversion = 0` (a finite numeric input)
with the default market assumptions, `optimal_total_wealth_weights` divides
by zero and raises (returns `none`) instead of returning a value. -/
theorem claim_C3_counterexample :
    optimal_total_wealth_weights 0 STOCK_EXCESS_RETURN BOND_EXCESS_RETURN
      STOCK_VARIANCE BOND_VARIANCE = none := by
  norm_num [optimal_total_wealth_weights, pydiv]

/-- Claim C3 witness at concrete inputs. -/
theorem claim_C3_witness :
    (0 : ℚ) < 1 + 0 ∧ (1 : ℚ) + (0 + 0 * 0) ≠ 0 ∧ (1 : ℚ) * 1 ≠ 0 ∧
    (1 : ℚ) * 1 ^ 2 ≠ 0 ∧ (1 : ℚ) ≠ 0 ∧
    ((pv_annuity 1 0 1).isSome ∧
    (pv_human_capital 2 1 0 0 0).isSome ∧
    (pv_expenses 1 1 1 0 0).isSome ∧
    (annuity_duration 0 1).isSome ∧
    (human_capital_duration 1 0).isSome ∧
    (expense_duration 1 0 1 1 0).isSome ∧
    (optimal_total_wealth_weights 1 0 0 1 1).isSome ∧
    (financial_portfolio_weights 1 1 0 0 0 0 ⟨1, 0, 0⟩ 1 0 true).isSome ∧
    (compute_glide_path 1 2 2 2 1 1 1 1 0 0 0 0 1 1 1 0 0 0).isSome) :=
  ⟨by norm_num, by norm_num, by norm_num, by norm_num, by norm_num,
    claim_C3 1 0 1 2 1 0 0 0 1 1 1 0 0 1 1 1 1 0 0 0 0 ⟨1, 0, 0⟩ 1 0 true
      1 2 2 1 1 1 0 0 0 (by norm_num) (by norm_num) (by norm_num)
      (by norm_num) (by norm_num) (by norm_num) (by norm_num)⟩
